import Mathlib

/-!
Shallow embedding of the car-marketplace backend (listing store, notification
fan-out, vendor analytics) and proofs about its specified behaviour.

Sources embedded:
- `src/models/Car.ts` (carSchema) as the `Car` structure;
- `src/socket.ts` room helpers as the `Topic` type;
- `src/services/notificationService.ts` (`notifyPriceChange`, `notifyInquiry`);
- `src/services/vendorNotificationService.ts` (`notifyNewInquiry`,
  `notifyPerformanceMilestone`);
- `src/routes/upload.ts` (`POST /api/cars/:id/inquiry`, `PATCH /api/cars/:id/status`);
- `src/routes/auth.ts` (vendor dashboard, bulk-update, leads, recommendations).

The document store is a `List Car`; Mongo `findById` is first-match lookup,
`findByIdAndUpdate` updates the first matching document (ids are unique in
Mongo).  JavaScript numbers are modelled as `ℚ`, `Math.round` as Mathlib's
`round` (round half towards +infinity, as in JS for the non-negative values
that occur here), and `toFixed(1)` as decimal formatting after rounding to one
decimal digit.
-/

namespace CarMarket

/-- Listing document, from `carSchema` in `src/models/Car.ts` (the fields used
by the routes and services under verification; `status` is one of
"active", "sold", "pending", "inactive"). -/
structure Car where
  id : Nat
  make : String
  model : String
  year : Int
  price : ℚ
  city : String
  state : String
  seller : Nat
  status : String
  views : Nat
  inquiries : Nat
  favorites : Nat
  listedAt : Int
  lastUpdated : Int
  soldAt : Option Int
  featured : Bool
  urgent : Bool
deriving DecidableEq, Repr

/-- Fan-out topics, from the room helpers in `src/socket.ts`:
`emitToLocation` (room `city_state`), `emitToMakeInterests` (room `make_x`),
`emitToUser` (room `user_id`). -/
inductive Topic where
  | location (city state : String)
  | make (m : String)
  | user (id : Nat)
deriving DecidableEq, Repr

/-- Value assigned to a field in a bulk-update request body. -/
inductive FieldVal where
  | str (s : String)
  | bool (b : Bool)
  | num (q : ℚ)
deriving DecidableEq, Repr

/-- Events published through the topic router (payload fields that the claims
mention). -/
inductive Event where
  | priceAlert (topic : Topic) (oldPrice newPrice : ℚ) (discount : String)
  | newInquiry (topic : Topic) (carId : Nat) (inquirer : String) (priority : String)
  | performanceMilestone (topic : Topic) (carId : Nat) (milestone : String) (priority : String)
  | inventoryUpdate (topic : Topic) (updatedCount : Nat) (updates : List (String × FieldVal))
deriving DecidableEq, Repr

/-- `Car.findById`: first document whose id matches (Mongo ids are unique). -/
def findById (db : List Car) (carId : Nat) : Option Car :=
  db.find? (fun c => c.id = carId)

/-- `Car.findByIdAndUpdate`: update the unique (first) document with this id. -/
def updateById (db : List Car) (carId : Nat) (f : Car → Car) : List Car :=
  match db with
  | [] => []
  | c :: rest => if c.id = carId then f c :: rest else c :: updateById rest carId f

/-- JavaScript `x.toFixed(1)` for the non-negative numbers this code formats:
round to one decimal digit and print with exactly one digit after the point. -/
def toFixed1 (q : ℚ) : String :=
  let n : Int := round (q * 10)
  toString (n / 10) ++ "." ++ toString (n % 10)

/-- `NotificationService.notifyPriceChange` (src/services/notificationService.ts,
lines 29-54): look the car up; if absent do nothing; compute
`priceChange = (newPrice - oldPrice) / oldPrice * 100`; when `priceChange < -5`
publish a `priceAlert` to the location room and the make room, carrying the old
price, new price and `Math.abs(priceChange).toFixed(1)`. -/
def notifyPriceChange (db : List Car) (carId : Nat) (oldPrice newPrice : ℚ) : List Event :=
  match findById db carId with
  | none => []
  | some car =>
    let priceChange : ℚ := (newPrice - oldPrice) / oldPrice * 100
    if priceChange < -5 then
      [Event.priceAlert (Topic.location car.city car.state) oldPrice newPrice
         (toFixed1 |priceChange|),
       Event.priceAlert (Topic.make car.make) oldPrice newPrice (toFixed1 |priceChange|)]
    else []

/-- `NotificationService.notifyInquiry` (src/services/notificationService.ts,
lines 57-72): look the car up; if absent do nothing; emit a `newInquiry` event
to the seller's personal room. -/
def notifyInquiry (db : List Car) (carId : Nat) (inquirerName : String) : List Event :=
  match findById db carId with
  | none => []
  | some car => [Event.newInquiry (Topic.user car.seller) carId inquirerName "none"]

/-- `VendorNotificationService.notifyNewInquiry`
(src/services/vendorNotificationService.ts, lines 6-19): look the car up; if
absent do nothing; emit a high-priority `newInquiry` event to the vendor's
personal room. -/
def notifyNewInquiry (db : List Car) (vendorId : Nat) (carId : Nat)
    (inquirerName : String) : List Event :=
  match findById db carId with
  | none => []
  | some _car => [Event.newInquiry (Topic.user vendorId) carId inquirerName "high"]

/-- Priority assigned by the `switch (milestone)` in
`VendorNotificationService.notifyPerformanceMilestone` (the variable starts at
"low" and is reassigned per case). -/
def milestonePriority (milestone : String) : String :=
  if milestone = "high_views" then "medium"
  else if milestone = "multiple_inquiries" then "high"
  else if milestone = "trending" then "medium"
  else "low"

/-- `VendorNotificationService.notifyPerformanceMilestone`
(src/services/vendorNotificationService.ts, lines 22-53): look the car up; if
absent do nothing; emit a `performanceMilestone` event to the vendor's personal
room. -/
def notifyPerformanceMilestone (db : List Car) (vendorId : Nat) (carId : Nat)
    (milestone : String) : List Event :=
  match findById db carId with
  | none => []
  | some _car =>
    [Event.performanceMilestone (Topic.user vendorId) carId milestone
       (milestonePriority milestone)]

/-- Urgency classification from `GET /api/vendors/leads` (src/routes/auth.ts,
line 495): `daysListed > 30 ? 'high' : daysListed > 14 ? 'medium' : 'low'`. -/
def urgencyScore (daysListed : Int) : String :=
  if daysListed > 30 then "high" else if daysListed > 14 then "medium" else "low"

/-- Inquiry rate from `GET /api/vendors/leads` (src/routes/auth.ts, line 494):
`car.views > 0 ? (car.inquiries / car.views) * 100 : 0`. -/
def inquiryRate (c : Car) : ℚ :=
  if c.views > 0 then ((c.inquiries : ℚ) / (c.views : ℚ)) * 100 else 0

/-- Lead score from `GET /api/vendors/leads` (src/routes/auth.ts, line 499):
`Math.round(inquiryRate * 10) / 10`. -/
def leadScore (c : Car) : ℚ :=
  (round (inquiryRate c * 10) : ℚ) / 10

/-- `POST /api/cars/:id/inquiry` (src/routes/upload.ts, lines 512-541): look the
car up (404 if absent); atomically increment `inquiries`; notify the seller
(`NotificationService.notifyInquiry` then
`VendorNotificationService.notifyNewInquiry`, both reading the post-increment
store); re-fetch the car and, when the updated inquiry count equals exactly 5,
send the `multiple_inquiries` performance milestone.  Returns
(http status, new store, published events in order). -/
def recordInquiry (db : List Car) (carId : Nat) (inquirerName : String) :
    Nat × List Car × List Event :=
  match findById db carId with
  | none => (404, db, [])
  | some car =>
    let db2 := updateById db carId (fun c => { c with inquiries := c.inquiries + 1 })
    let ev1 := notifyInquiry db2 carId inquirerName
    let ev2 := notifyNewInquiry db2 car.seller carId inquirerName
    let ev3 :=
      match findById db2 carId with
      | some updated =>
        if updated.inquiries = 5 then
          notifyPerformanceMilestone db2 car.seller carId "multiple_inquiries"
        else []
      | none => []
    (200, db2, ev1 ++ ev2 ++ ev3)

/-- Recognizes performance-milestone events among published events. -/
def isMilestone : Event → Bool
  | .performanceMilestone _ _ _ _ => true
  | _ => false

/-- `PATCH /api/cars/:id/status` (src/routes/upload.ts, lines 544-568): look the
car up (404 if absent), check ownership (403), check the status value is one of
active/inactive/sold/pending (400), then assign `car.status` and save (the
`pre('save')` hook in src/models/Car.ts sets only `lastUpdated`; nothing
writes `soldAt`). -/
def patchCarStatus (db : List Car) (userId : Nat) (carId : Nat)
    (status : String) (now : Int) : Nat × List Car :=
  match findById db carId with
  | none => (404, db)
  | some car =>
    if car.seller ≠ userId then (403, db)
    else if status ∈ ["active", "inactive", "sold", "pending"] then
      (200, updateById db carId (fun c => { c with status := status, lastUpdated := now }))
    else (400, db)

/-- A listing used as a concrete test fixture throughout. -/
def sampleCar : Car :=
  { id := 1, make := "Toyota", model := "Camry", year := 2020, price := 28500,
    city := "Austin", state := "TX", seller := 7, status := "active",
    views := 10, inquiries := 0, favorites := 0, listedAt := 0,
    lastUpdated := 0, soldAt := none, featured := false, urgent := false }

/-- A vendor's listings (`$match: { seller: vendorId }` in the dashboard
aggregation, src/routes/auth.ts lines 137-149). -/
def vendorCars (db : List Car) (vendorId : Nat) : List Car :=
  db.filter (fun c => c.seller = vendorId)

/-- `stats.sold` from the dashboard overview: the size of the status group
"sold" among the vendor's listings. -/
def vendorSold (db : List Car) (vendorId : Nat) : Nat :=
  ((vendorCars db vendorId).filter (fun c => c.status = "sold")).length

/-- `stats.totalInquiries` from the dashboard overview: the per-status
`totalInquiries` sums accumulated over every status group, i.e. the sum of
`inquiries` over all of the vendor's listings. -/
def vendorTotalInquiries (db : List Car) (vendorId : Nat) : Nat :=
  ((vendorCars db vendorId).map Car.inquiries).sum

/-- `insights.conversionRate` (src/routes/auth.ts line 229):
`stats.totalInquiries > 0 ? (stats.sold / stats.totalInquiries * 100).toFixed(1) : '0'`. -/
def conversionRate (db : List Car) (vendorId : Nat) : String :=
  if vendorTotalInquiries db vendorId > 0 then
    toFixed1 ((vendorSold db vendorId : ℚ) / (vendorTotalInquiries db vendorId : ℚ) * 100)
  else "0"

/-- Whitelisted bulk-update fields (src/routes/auth.ts line 437). -/
def validUpdates : List String := ["status", "featured", "urgent", "price"]

/-- Apply one `$set` entry to a listing document.  A key outside the document
fields, or a value whose shape does not match the field's type, leaves the
document unchanged (the typed document cannot represent such a write; the
claims under verification concern only which fields change). -/
def applyField (c : Car) (kv : String × FieldVal) : Car :=
  match kv.2 with
  | FieldVal.str s => if kv.1 = "status" then { c with status := s } else c
  | FieldVal.bool b =>
    if kv.1 = "featured" then { c with featured := b }
    else if kv.1 = "urgent" then { c with urgent := b } else c
  | FieldVal.num q => if kv.1 = "price" then { c with price := q } else c

/-- Mongo `$set` with an update document: apply every entry in order. -/
def applySet (c : Car) (updates : List (String × FieldVal)) : Car :=
  updates.foldl applyField c

/-- `POST /api/vendors/bulk-update` (src/routes/auth.ts lines 428-472):
reject empty `carIds` (400); keep only whitelisted keys of `updates`; reject
when none remains (400); `updateMany` over documents whose id is in `carIds`
AND whose seller is the requesting vendor; then emit one `inventoryUpdate`
event to the vendor's personal room carrying `result.modifiedCount` (documents
the `$set` actually changed) and the applied update document. -/
def bulkUpdate (db : List Car) (vendorId : Nat) (carIds : List Nat)
    (updates : List (String × FieldVal)) : Nat × List Car × List Event :=
  if carIds = [] then (400, db, [])
  else
    let updateData := updates.filter (fun kv => kv.1 ∈ validUpdates)
    if updateData = [] then (400, db, [])
    else
      let db2 := db.map (fun c =>
        if c.id ∈ carIds ∧ c.seller = vendorId then applySet c updateData else c)
      let modifiedCount :=
        (db.filter (fun c =>
          (c.id ∈ carIds ∧ c.seller = vendorId) ∧ applySet c updateData ≠ c)).length
      (200, db2, [Event.inventoryUpdate (Topic.user vendorId) modifiedCount updateData])

/-- The fields a bulk update can never touch are identical in `a` and `b`
(everything outside the status/featured/urgent/price whitelist). -/
def preservesNonWhitelisted (a b : Car) : Prop :=
  a.id = b.id ∧ a.make = b.make ∧ a.model = b.model ∧ a.year = b.year ∧
    a.city = b.city ∧ a.state = b.state ∧ a.seller = b.seller ∧
    a.views = b.views ∧ a.inquiries = b.inquiries ∧ a.favorites = b.favorites ∧
    a.listedAt = b.listedAt ∧ a.lastUpdated = b.lastUpdated ∧ a.soldAt = b.soldAt

/-- Comparable listings matched by the `$lookup` pipeline of the pricing
insights in `GET /api/vendors/recommendations` (src/routes/auth.ts, lines
545-571): same make and model, model year within ±2, status active.  The
pipeline has NO seller clause, so it does not exclude the vendor's own
listings (the outer listing itself is matched as well). -/
def comparableListings (db : List Car) (l : Car) : List Car :=
  db.filter (fun c => c.make = l.make ∧ c.model = l.model ∧
    l.year - 2 ≤ c.year ∧ c.year ≤ l.year + 2 ∧ c.status = "active")

/-- `avgMarketPrice` of the lookup's `$group` stage: the mean price over the
comparable listings, or `none` when no listing matches (empty group output,
`marketPrice` null). -/
def avgMarketPrice (db : List Car) (l : Car) : Option ℚ :=
  let ps := comparableListings db l
  if ps.isEmpty then none
  else some (((ps.map Car.price).sum) / (ps.length : ℚ))

/-- One pricing recommendation as assembled by `recommendations.pricing`
(src/routes/auth.ts, lines 642-648). -/
structure PricingRec where
  car : Car
  marketPrice : ℚ
  priceDiff : ℚ
  priority : String
deriving DecidableEq, Repr

/-- The `pricingInsights` pipeline plus the priority mapping of
`GET /api/vendors/recommendations` (src/routes/auth.ts, lines 542-607 and
642-648): over the vendor's active listings, keep those whose price differs
from the comparable-market mean by more than +5000 (overpriced) or less than
−3000 (underpriced), limit to 5, and tag priority "high" when the absolute
difference exceeds 10000, else "medium". -/
def pricingRecommendations (db : List Car) (vendorId : Nat) : List PricingRec :=
  ((((db.filter (fun c => c.seller = vendorId ∧ c.status = "active")).filterMap
      (fun l =>
        match avgMarketPrice db l with
        | none => none
        | some m =>
          if l.price - m > 5000 ∨ l.price - m < -3000 then
            some (l, m, l.price - m)
          else none)).take 5).map
    (fun (x : Car × ℚ × ℚ) =>
      { car := x.1, marketPrice := x.2.1, priceDiff := x.2.2,
        priority := if |x.2.2| > 10000 then "high" else "medium" }))

/-- Modelled from the spec sentence of the claim, for comparison with the
code: comparable listings per the claim are same make and model, model year
within ±2, status active, AND exclude the vendor's own listings. -/
def specComparableExcludingOwn (db : List Car) (vendorId : Nat) (l : Car) :
    List Car :=
  db.filter (fun c => c.make = l.make ∧ c.model = l.model ∧
    l.year - 2 ≤ c.year ∧ c.year ≤ l.year + 2 ∧ c.status = "active" ∧
    c.seller ≠ vendorId)

/-- Modelled from the spec sentence of the claim: the mean price over the
claim's comparable listings (those excluding the vendor's own). -/
def specMarketMean (db : List Car) (vendorId : Nat) (l : Car) : Option ℚ :=
  let ps := specComparableExcludingOwn db vendorId l
  if ps.isEmpty then none
  else some (((ps.map Car.price).sum) / (ps.length : ℚ))

/-- Fixture for the pricing claims: vendor 1's sole active listing. -/
def ownListing : Car :=
  { id := 1, make := "Toyota", model := "Camry", year := 2020, price := 40000,
    city := "Austin", state := "TX", seller := 1, status := "active",
    views := 0, inquiries := 0, favorites := 0, listedAt := 0,
    lastUpdated := 0, soldAt := none, featured := false, urgent := false }

/-- Fixture for the pricing claims: the only comparable listing of another
seller. -/
def rivalListing : Car :=
  { id := 2, make := "Toyota", model := "Camry", year := 2020, price := 20000,
    city := "Dallas", state := "TX", seller := 2, status := "active",
    views := 0, inquiries := 0, favorites := 0, listedAt := 0,
    lastUpdated := 0, soldAt := none, featured := false, urgent := false }

theorem findById_updateById (db : List Car) (carId : Nat) (f : Car → Car)
    (hf : ∀ c, (f c).id = c.id) :
    findById (updateById db carId f) carId = (findById db carId).map f := by
  induction db with
  | nil => rfl
  | cons c rest ih =>
    by_cases h : c.id = carId
    · simp [updateById, findById, h, hf c]
    · simp only [updateById, if_neg h, findById] at *
      rw [List.find?_cons_of_neg, List.find?_cons_of_neg]
      · exact ih
      · simpa using h
      · simpa using h

theorem applyField_preserves (c : Car) (kv : String × FieldVal) :
    preservesNonWhitelisted c (applyField c kv) := by
  rcases kv with ⟨k, v⟩
  cases v <;> simp only [applyField] <;> split_ifs <;>
    exact ⟨rfl, rfl, rfl, rfl, rfl, rfl, rfl, rfl, rfl, rfl, rfl, rfl, rfl⟩

theorem preservesNonWhitelisted_refl (c : Car) : preservesNonWhitelisted c c :=
  ⟨rfl, rfl, rfl, rfl, rfl, rfl, rfl, rfl, rfl, rfl, rfl, rfl, rfl⟩

theorem preservesNonWhitelisted_trans {a b c : Car}
    (h1 : preservesNonWhitelisted a b) (h2 : preservesNonWhitelisted b c) :
    preservesNonWhitelisted a c := by
  obtain ⟨e1, e2, e3, e4, e5, e6, e7, e8, e9, e10, e11, e12, e13⟩ := h1
  obtain ⟨f1, f2, f3, f4, f5, f6, f7, f8, f9, f10, f11, f12, f13⟩ := h2
  exact ⟨e1.trans f1, e2.trans f2, e3.trans f3, e4.trans f4, e5.trans f5,
    e6.trans f6, e7.trans f7, e8.trans f8, e9.trans f9, e10.trans f10,
    e11.trans f11, e12.trans f12, e13.trans f13⟩

theorem applySet_preserves (updates : List (String × FieldVal)) (c : Car) :
    preservesNonWhitelisted c (applySet c updates) := by
  induction updates generalizing c with
  | nil => exact preservesNonWhitelisted_refl c
  | cons kv rest ih =>
    exact preservesNonWhitelisted_trans (applyField_preserves c kv) (ih (applyField c kv))

/-- Diffing a list against its image under `f`, position by position, counts
exactly the elements `f` changes. -/
theorem zip_map_modified_count (db : List Car) (f : Car → Car) :
    ((db.zip (db.map f)).filter (fun p => p.1 ≠ p.2)).length =
      (db.filter (fun c => c ≠ f c)).length := by
  induction db with
  | nil => rfl
  | cons c rest ih =>
    simp only [ne_eq, decide_not] at ih
    by_cases h : c = f c
    · have h1 : (!decide (c = f c)) = false := by rw [decide_eq_true h]; rfl
      simp [List.filter_cons, h1, ih]
    · have h1 : (!decide (c = f c)) = true := by rw [decide_eq_false h]; rfl
      simp [List.filter_cons, h1, ih]

theorem modified_count_eq (db : List Car) (m : Car → Prop) [DecidablePred m]
    (g : Car → Car) :
    ((db.zip (db.map (fun c => if m c then g c else c))).filter
        (fun p => p.1 ≠ p.2)).length =
      (db.filter (fun c => m c ∧ g c ≠ c)).length := by
  rw [zip_map_modified_count]
  induction db with
  | nil => rfl
  | cons c rest ih =>
    simp only [ne_eq, decide_not] at ih
    by_cases hm : m c
    · by_cases hg : g c = c
      · have h1 : (!decide (c = if m c then g c else c)) = false := by
          rw [if_pos hm, decide_eq_true hg.symm]; rfl
        have h2 : (decide (m c) && !decide (g c = c)) = false := by
          rw [decide_eq_true hm, decide_eq_true hg]; rfl
        simp [List.filter_cons, h1, h2, ih]
      · have h1 : (!decide (c = if m c then g c else c)) = true := by
          rw [if_pos hm, decide_eq_false (fun h => hg h.symm)]; rfl
        have h2 : (decide (m c) && !decide (g c = c)) = true := by
          rw [decide_eq_true hm, decide_eq_false hg]; rfl
        simp [List.filter_cons, h1, h2, ih]
    · have h1 : (!decide (c = if m c then g c else c)) = false := by
        rw [if_neg hm, decide_eq_true rfl]; rfl
      have h2 : (decide (m c) && !decide (g c = c)) = false := by
        rw [decide_eq_false hm]; rfl
      simp [List.filter_cons, h1, h2, ih]

end CarMarket

namespace CarMarket

/-- C1: for the price-change fan-out with
`percentDiff = (newPrice - oldPrice) / oldPrice * 100`, the claim says an alert
is published whenever `percentDiff <= -5`.  The code
(src/services/notificationService.ts, line 36) tests `priceChange < -5`
strictly, so a drop from 100 to exactly 95 has `percentDiff = -5 <= -5` and
yet publishes no event. -/
theorem price_alert_at_exactly_minus_five_counterexample :
    (((95 : ℚ) - 100) / 100 * 100 ≤ -5) ∧
      notifyPriceChange
        [{ id := 1, make := "Toyota", model := "Camry", year := 2020, price := 100,
           city := "Austin", state := "TX", seller := 7, status := "active",
           views := 0, inquiries := 0, favorites := 0, listedAt := 0,
           lastUpdated := 0, soldAt := none, featured := false, urgent := false }]
        1 100 95 = [] := by
  constructor
  · norm_num
  · have h5 : ¬ (((95 : ℚ) - 100) / 100 * 100 < -5) := by norm_num
    simp [notifyPriceChange, findById, List.find?, h5]
    norm_num

/-- C1 (amended): a price-alert is published to the listing's location topic
and its make topic, carrying the old price, the new price and the rounded
percent drop, exactly when `percentDiff < -5` strictly; when
`percentDiff >= -5` (drops of 5% or less, and every increase) nothing is
published. -/
theorem price_alert_iff_strict_drop (db : List Car) (carId : Nat)
    (oldPrice newPrice : ℚ) (car : Car) (h : findById db carId = some car) :
    notifyPriceChange db carId oldPrice newPrice =
      (if (newPrice - oldPrice) / oldPrice * 100 < -5 then
        [Event.priceAlert (Topic.location car.city car.state) oldPrice newPrice
           (toFixed1 |(newPrice - oldPrice) / oldPrice * 100|),
         Event.priceAlert (Topic.make car.make) oldPrice newPrice
           (toFixed1 |(newPrice - oldPrice) / oldPrice * 100|)]
      else []) := by
  simp only [notifyPriceChange, h]

/-- C1 witness: a drop from 100 to 94 (percentDiff = -6) publishes the two
alerts with a 6.0% discount, and a drop from 100 to 97 (percentDiff = -3)
publishes none. -/
theorem price_alert_iff_strict_drop_witness :
    notifyPriceChange
        [{ id := 1, make := "Toyota", model := "Camry", year := 2020, price := 100,
           city := "Austin", state := "TX", seller := 7, status := "active",
           views := 0, inquiries := 0, favorites := 0, listedAt := 0,
           lastUpdated := 0, soldAt := none, featured := false, urgent := false }]
        1 100 94 =
      [Event.priceAlert (Topic.location "Austin" "TX") 100 94 "6.0",
       Event.priceAlert (Topic.make "Toyota") 100 94 "6.0"] ∧
    notifyPriceChange
        [{ id := 1, make := "Toyota", model := "Camry", year := 2020, price := 100,
           city := "Austin", state := "TX", seller := 7, status := "active",
           views := 0, inquiries := 0, favorites := 0, listedAt := 0,
           lastUpdated := 0, soldAt := none, featured := false, urgent := false }]
        1 100 97 = [] := by
  constructor
  · rw [price_alert_iff_strict_drop _ _ _ _ _ (by rfl)]
    have h : (((94 : ℚ) - 100) / 100 * 100) = -6 := by norm_num
    rw [h]
    have h6 : |(-6 : ℚ)| = 6 := by norm_num
    have hr : round ((6 : ℚ) * 10) = 60 := by norm_num [round_eq]
    simp [toFixed1, h6, hr]
    rfl
  · rw [price_alert_iff_strict_drop _ _ _ _ _ (by rfl)]
    norm_num

/-- C4: the claim asserts `daysListed = 14` classifies as "medium"; the code
(src/routes/auth.ts, line 495) tests `daysListed > 14`, so 14 classifies as
"low", not "medium". -/
theorem urgency_at_fourteen_counterexample : urgencyScore 14 ≠ "medium" := by
  decide

/-- C4 (amended): urgency is "high" for `daysListed = 31`, "medium" for 20,
"low" for 5, and at the boundaries "medium" for 30 and "low" (not "medium")
for 14 — the lower bound is exclusive (`14 < daysListed <= 30` gives
"medium"). -/
theorem urgency_classification :
    urgencyScore 31 = "high" ∧ urgencyScore 20 = "medium" ∧
      urgencyScore 5 = "low" ∧ urgencyScore 30 = "medium" ∧
      urgencyScore 14 = "low" := by
  decide

/-- C2: recording an inquiry on an existing listing publishes a
performance-milestone event to the seller's personal topic exactly when the
post-increment inquiry count equals 5, and that event is the single
`multiple_inquiries` milestone with priority "high"; at any other count no
milestone event is published. -/
theorem inquiry_milestone_exactly_at_five (db : List Car) (carId : Nat)
    (name : String) (car : Car) (h : findById db carId = some car) :
    (recordInquiry db carId name).2.2.filter isMilestone =
      (if car.inquiries + 1 = 5 then
        [Event.performanceMilestone (Topic.user car.seller) carId
           "multiple_inquiries" "high"]
      else []) := by
  have hid : ∀ c : Car, ({ c with inquiries := c.inquiries + 1 } : Car).id = c.id :=
    fun c => rfl
  have hup := findById_updateById db carId
    (fun c => { c with inquiries := c.inquiries + 1 }) hid
  rw [h] at hup
  have hprio : milestonePriority "multiple_inquiries" = "high" := rfl
  simp only [recordInquiry, h, hup, Option.map_some, notifyInquiry,
    notifyNewInquiry, notifyPerformanceMilestone, hprio]
  by_cases h5 : car.inquiries + 1 = 5
  · simp [h5, isMilestone]
  · simp [h5, isMilestone]

/-- C2 witness: with the fixture listing at 4 inquiries the transition 4→5
publishes exactly the one milestone event to the seller's topic, and at 5
inquiries the transition 5→6 publishes none. -/
theorem inquiry_milestone_exactly_at_five_witness :
    (recordInquiry [{ sampleCar with inquiries := 4 }] 1 "Bob").2.2.filter isMilestone =
        [Event.performanceMilestone (Topic.user 7) 1 "multiple_inquiries" "high"] ∧
      (recordInquiry [{ sampleCar with inquiries := 5 }] 1 "Bob").2.2.filter isMilestone
        = [] := by
  constructor
  · have h := inquiry_milestone_exactly_at_five
      [{ sampleCar with inquiries := 4 }] 1 "Bob" { sampleCar with inquiries := 4 } rfl
    simpa [sampleCar] using h
  · have h := inquiry_milestone_exactly_at_five
      [{ sampleCar with inquiries := 5 }] 1 "Bob" { sampleCar with inquiries := 5 } rfl
    simpa [sampleCar] using h

/-- C3: the claim asserts that after changing a listing's status to "sold"
through the public status-update operation, `soldAt` is set with
`soldAt >= listedAt`.  The code slip: `PATCH /api/cars/:id/status` assigns only
`car.status` (and the save hook refreshes `lastUpdated`); `soldAt` is never
written anywhere in the repository, so the sold listing below ends with
`status = "sold"` and `soldAt = none` while the rest of the code
(sales analytics, revenue grouping) relies on `soldAt` being set for sold
cars. -/
theorem status_sold_leaves_soldAt_unset :
    (patchCarStatus [sampleCar] 7 1 "sold" 100).1 = 200 ∧
      findById (patchCarStatus [sampleCar] 7 1 "sold" 100).2 1 =
        some { sampleCar with status := "sold", lastUpdated := 100 } ∧
      ({ sampleCar with status := "sold", lastUpdated := 100 } : Car).status = "sold" ∧
      ({ sampleCar with status := "sold", lastUpdated := 100 } : Car).soldAt = none := by
  refine ⟨rfl, ?_, rfl, rfl⟩
  rfl

/-- C9: every fan-out operation that looks a listing up by id — the
price-change alert, both inquiry notifications to the seller, and the
performance-milestone notification — returns normally with no published event
when the referenced listing is absent. -/
theorem notfound_skips_fanout (db : List Car) (carId vendorId : Nat)
    (oldPrice newPrice : ℚ) (name milestone : String)
    (h : findById db carId = none) :
    notifyPriceChange db carId oldPrice newPrice = [] ∧
      notifyInquiry db carId name = [] ∧
      notifyNewInquiry db vendorId carId name = [] ∧
      notifyPerformanceMilestone db vendorId carId milestone = [] := by
  simp [notifyPriceChange, notifyInquiry, notifyNewInquiry,
    notifyPerformanceMilestone, h]

/-- C9 witness: on an empty store every lookup fails and all four fan-out
operations publish nothing. -/
theorem notfound_skips_fanout_witness :
    notifyPriceChange [] 0 100 90 = [] ∧
      notifyInquiry [] 0 "Bob" = [] ∧
      notifyNewInquiry [] 3 0 "Bob" = [] ∧
      notifyPerformanceMilestone [] 3 0 "multiple_inquiries" = [] :=
  notfound_skips_fanout [] 0 3 100 90 "Bob" "multiple_inquiries" rfl

/-- C5: the lead score of a listing is `inquiries / views * 100` rounded to
one decimal place when `views > 0`, and is 0 whenever `views = 0` no matter
the inquiry count (the division is guarded and never reached in that case). -/
theorem lead_score_safe_division (c : Car) :
    (c.views = 0 → leadScore c = 0) ∧
      (0 < c.views →
        leadScore c =
          (round ((c.inquiries : ℚ) / (c.views : ℚ) * 100 * 10) : ℚ) / 10) := by
  constructor
  · intro h
    simp [leadScore, inquiryRate, h]
  · intro h
    simp [leadScore, inquiryRate, h]

/-- C5 witness: a listing with 0 views and 7 inquiries scores 0; a listing
with 3 views and 1 inquiry scores 33.3 (the one-decimal rounding of
33.33...). -/
theorem lead_score_safe_division_witness :
    leadScore { sampleCar with views := 0, inquiries := 7 } = 0 ∧
      leadScore { sampleCar with views := 3, inquiries := 1 } = 333 / 10 := by
  constructor
  · exact (lead_score_safe_division { sampleCar with views := 0, inquiries := 7 }).1 rfl
  · have h := (lead_score_safe_division { sampleCar with views := 3, inquiries := 1 }).2
      (by norm_num)
    rw [h]
    norm_num [round_eq]

/-- C8: the vendor dashboard's conversion rate is
`sold / totalInquiries * 100` formatted to one decimal place when the vendor's
total inquiry count is positive, and is the string "0" when it is zero. -/
theorem dashboard_conversion_rate (db : List Car) (vendorId : Nat) :
    (vendorTotalInquiries db vendorId = 0 → conversionRate db vendorId = "0") ∧
      (0 < vendorTotalInquiries db vendorId →
        conversionRate db vendorId =
          toFixed1 ((vendorSold db vendorId : ℚ) /
            (vendorTotalInquiries db vendorId : ℚ) * 100)) := by
  constructor
  · intro h
    simp [conversionRate, h]
  · intro h
    simp [conversionRate, h]

/-- C8 witness: a vendor with one sold listing that gathered 4 inquiries has
conversion rate "25.0"; a vendor with no listings (zero inquiries) has
conversion rate "0". -/
theorem dashboard_conversion_rate_witness :
    conversionRate [{ sampleCar with status := "sold", inquiries := 4 }] 7 = "25.0" ∧
      conversionRate [] 7 = "0" := by
  constructor
  · have h := (dashboard_conversion_rate
      [{ sampleCar with status := "sold", inquiries := 4 }] 7).2 (by decide)
    rw [h]
    have hsold : (vendorSold [{ sampleCar with status := "sold", inquiries := 4 }] 7 : ℚ) = 1 := by
      norm_num [vendorSold, vendorCars, sampleCar]
    have hinq : (vendorTotalInquiries
        [{ sampleCar with status := "sold", inquiries := 4 }] 7 : ℚ) = 4 := by
      norm_num [vendorTotalInquiries, vendorCars, sampleCar]
    rw [hsold, hinq]
    have hq : (1 : ℚ) / 4 * 100 = 25 := by norm_num
    rw [hq]
    have hr : round ((25 : ℚ) * 10) = 250 := by norm_num [round_eq]
    simp [toFixed1, hr]
    rfl
  · exact (dashboard_conversion_rate [] 7).1 rfl

/-- C6: a bulk update never touches a listing whose seller is not the
requesting vendor (position by position the store is unchanged there), and on
success the single inventory-update event sent to the vendor's personal topic
carries the number of listings the update actually changed (the positions at
which the new store differs from the old) together with the applied
(whitelisted) fields. -/
theorem bulk_update_ownership_and_event (db : List Car) (vendorId : Nat)
    (carIds : List Nat) (updates : List (String × FieldVal)) :
    (∀ i, ∀ hi : i < db.length, (db[i]).seller ≠ vendorId →
        ((bulkUpdate db vendorId carIds updates).2.1)[i]? = some db[i]) ∧
      ((bulkUpdate db vendorId carIds updates).1 = 200 →
        (bulkUpdate db vendorId carIds updates).2.2 =
          [Event.inventoryUpdate (Topic.user vendorId)
            ((db.zip (bulkUpdate db vendorId carIds updates).2.1).filter
                (fun p => p.1 ≠ p.2)).length
            (updates.filter (fun kv => kv.1 ∈ validUpdates))]) := by
  by_cases h1 : carIds = []
  · constructor
    · intro i hi _
      simp [bulkUpdate, h1, List.getElem?_eq_getElem hi]
    · intro hc
      simp [bulkUpdate, h1] at hc
  · by_cases h2 : updates.filter (fun kv => kv.1 ∈ validUpdates) = []
    · constructor
      · intro i hi _
        simp [bulkUpdate, h1, h2, List.getElem?_eq_getElem hi]
      · intro hc
        simp [bulkUpdate, h1, h2] at hc
    · constructor
      · intro i hi hsell
        simp only [bulkUpdate, if_neg h1, if_neg h2]
        rw [List.getElem?_map, List.getElem?_eq_getElem hi]
        simp [hsell]
      · intro _
        simp only [bulkUpdate, if_neg h1, if_neg h2]
        rw [modified_count_eq db
          (fun c => c.id ∈ carIds ∧ c.seller = vendorId)
          (fun c => applySet c (updates.filter (fun kv => kv.1 ∈ validUpdates)))]

/-- C6 witness: with one listing owned by vendor 7 and one owned by vendor 9,
a bulk update by vendor 7 over both ids leaves the foreign listing untouched
and reports exactly one modified listing with the applied price field. -/
theorem bulk_update_ownership_and_event_witness :
    (({ sampleCar with id := 2, seller := 9 } : Car).seller ≠ 7) ∧
      ((bulkUpdate [sampleCar, { sampleCar with id := 2, seller := 9 }] 7 [1, 2]
          [("price", FieldVal.num 30000), ("vin", FieldVal.str "X")]).2.1)[1]? =
        some { sampleCar with id := 2, seller := 9 } ∧
      (bulkUpdate [sampleCar, { sampleCar with id := 2, seller := 9 }] 7 [1, 2]
          [("price", FieldVal.num 30000), ("vin", FieldVal.str "X")]).2.2 =
        [Event.inventoryUpdate (Topic.user 7) 1 [("price", FieldVal.num 30000)]] := by
  refine ⟨by decide, ?_, ?_⟩
  · exact (bulk_update_ownership_and_event
      [sampleCar, { sampleCar with id := 2, seller := 9 }] 7 [1, 2]
      [("price", FieldVal.num 30000), ("vin", FieldVal.str "X")]).1 1
      (by norm_num) (by decide)
  · have h := (bulk_update_ownership_and_event
      [sampleCar, { sampleCar with id := 2, seller := 9 }] 7 [1, 2]
      [("price", FieldVal.num 30000), ("vin", FieldVal.str "X")]).2 (by decide)
    rw [h]
    decide

/-- C10: the whitelisted keys status/featured/urgent/price fully determine a
bulk update (any request behaves exactly like the same request with the
non-whitelisted keys discarded); when no whitelisted key is present the
request is rejected with 400 and the store is unchanged; and position by
position, every field outside the whitelist survives any bulk update
unchanged. -/
theorem bulk_update_whitelist (db : List Car) (vendorId : Nat)
    (carIds : List Nat) (updates : List (String × FieldVal)) :
    bulkUpdate db vendorId carIds updates =
        bulkUpdate db vendorId carIds
          (updates.filter (fun kv => kv.1 ∈ validUpdates)) ∧
      (updates.filter (fun kv => kv.1 ∈ validUpdates) = [] →
        (bulkUpdate db vendorId carIds updates).1 = 400 ∧
          (bulkUpdate db vendorId carIds updates).2.1 = db) ∧
      (∀ i, ∀ hi : i < db.length, ∃ c,
        ((bulkUpdate db vendorId carIds updates).2.1)[i]? = some c ∧
          preservesNonWhitelisted db[i] c) := by
  have hidem : (updates.filter (fun kv => kv.1 ∈ validUpdates)).filter
      (fun kv => kv.1 ∈ validUpdates) = updates.filter (fun kv => kv.1 ∈ validUpdates) := by
    induction updates with
    | nil => rfl
    | cons kv rest ih =>
      by_cases hk : kv.1 ∈ validUpdates
      · simp [List.filter_cons, hk, ih]
      · simp [List.filter_cons, hk, ih]
  refine ⟨?_, ?_, ?_⟩
  · by_cases h1 : carIds = []
    · simp [bulkUpdate, h1]
    · simp only [bulkUpdate, if_neg h1, hidem]
  · intro h2
    by_cases h1 : carIds = []
    · simp [bulkUpdate, h1]
    · simp [bulkUpdate, h1, h2]
  · intro i hi
    by_cases h1 : carIds = []
    · exact ⟨db[i], by simp [bulkUpdate, h1, List.getElem?_eq_getElem hi],
        preservesNonWhitelisted_refl _⟩
    · by_cases h2 : updates.filter (fun kv => kv.1 ∈ validUpdates) = []
      · exact ⟨db[i], by simp [bulkUpdate, h1, h2, List.getElem?_eq_getElem hi],
          preservesNonWhitelisted_refl _⟩
      · refine ⟨if db[i].id ∈ carIds ∧ db[i].seller = vendorId then
            applySet db[i] (updates.filter (fun kv => kv.1 ∈ validUpdates))
          else db[i], ?_, ?_⟩
        · simp only [bulkUpdate, if_neg h1, if_neg h2]
          rw [List.getElem?_map, List.getElem?_eq_getElem hi]
          rfl
        · by_cases hm : db[i].id ∈ carIds ∧ db[i].seller = vendorId
          · simpa [hm] using applySet_preserves
              (updates.filter (fun kv => kv.1 ∈ validUpdates)) db[i]
          · simp only [if_neg hm]
            exact preservesNonWhitelisted_refl _

theorem pricing_fixture_eval :
    pricingRecommendations [ownListing, rivalListing] 1 =
      [{ car := ownListing, marketPrice := 30000, priceDiff := 10000,
         priority := "medium" }] := by
  have hcomp : comparableListings [ownListing, rivalListing] ownListing =
      [ownListing, rivalListing] := by decide
  have hmean : avgMarketPrice [ownListing, rivalListing] ownListing = some 30000 := by
    simp only [avgMarketPrice, hcomp]
    norm_num [ownListing, rivalListing]
  have hfil : ([ownListing, rivalListing].filter
      (fun c => c.seller = 1 ∧ c.status = "active")) = [ownListing] := by decide
  have hdiff : ownListing.price - 30000 = 10000 := by norm_num [ownListing]
  have habs : ¬ (|(10000 : ℚ)| > 10000) := by norm_num
  simp only [pricingRecommendations, hfil, List.filterMap_cons, List.filterMap_nil,
    hmean, hdiff]
  have hcond : (10000 : ℚ) > 5000 ∨ (10000 : ℚ) < -3000 := by norm_num
  rw [if_pos hcond]
  simp [habs]

/-- C7: the claim computes the comparable-market mean excluding the vendor's
own listings, but the pricing pipeline (src/routes/auth.ts, lines 548-561)
has no seller exclusion.  With one own listing at 40000 and one rival
comparable at 20000, the claim's mean is 20000, so the claim demands a
suggested adjustment of +20000 and (magnitude over 10000) priority "high";
the code averages over both listings (mean 30000) and emits adjustment
+10000 with priority "medium". -/
theorem pricing_excludes_own_counterexample :
    pricingRecommendations [ownListing, rivalListing] 1 =
        [{ car := ownListing, marketPrice := 30000, priceDiff := 10000,
           priority := "medium" }] ∧
      specMarketMean [ownListing, rivalListing] 1 ownListing = some 20000 ∧
      ownListing.price - 20000 = 20000 ∧ |(20000 : ℚ)| > 10000 ∧
      (10000 : ℚ) ≠ 20000 ∧ "medium" ≠ "high" := by
  refine ⟨pricing_fixture_eval, ?_, by norm_num [ownListing], by norm_num,
    by norm_num, by decide⟩
  have hspec : specComparableExcludingOwn [ownListing, rivalListing] 1 ownListing =
      [rivalListing] := by decide
  simp only [specMarketMean, hspec]
  norm_num [rivalListing]

/-- C7 (amended): every emitted pricing recommendation belongs to an active
listing of the requesting vendor, its market price is the mean over
comparable listings (same make and model, year within ±2, status active)
computed INCLUDING the vendor's own listings, its suggested adjustment is the
signed difference `price - mean` and lies outside the (+5000, −3000)
thresholds, and its priority is "high" exactly when the difference's
magnitude exceeds 10000, else "medium" (at most the first five flagged
listings are reported). -/
theorem pricing_recommendation_sound (db : List Car) (vendorId : Nat)
    (r : PricingRec) (hr : r ∈ pricingRecommendations db vendorId) :
    r.car.seller = vendorId ∧ r.car.status = "active" ∧
      avgMarketPrice db r.car = some r.marketPrice ∧
      r.priceDiff = r.car.price - r.marketPrice ∧
      (r.priceDiff > 5000 ∨ r.priceDiff < -3000) ∧
      r.priority = (if |r.priceDiff| > 10000 then "high" else "medium") := by
  unfold pricingRecommendations at hr
  rcases List.mem_map.1 hr with ⟨x, hx, rfl⟩
  have hx2 : x ∈ (db.filter (fun c => c.seller = vendorId ∧ c.status = "active")).filterMap
      (fun l =>
        match avgMarketPrice db l with
        | none => none
        | some m =>
          if l.price - m > 5000 ∨ l.price - m < -3000 then
            some (l, m, l.price - m)
          else none) :=
    List.take_subset 5 _ hx
  rcases List.mem_filterMap.1 hx2 with ⟨l, hl, hf⟩
  have hl2 := (List.mem_filter.1 hl).2
  have hsel : l.seller = vendorId ∧ l.status = "active" := by simpa using hl2
  cases hm : avgMarketPrice db l with
  | none => rw [hm] at hf; cases hf
  | some m =>
    have hf2 : (if l.price - m > 5000 ∨ l.price - m < -3000 then
        some (l, m, l.price - m) else none) = some x := by
      rw [hm] at hf
      exact hf
    by_cases hcond : l.price - m > 5000 ∨ l.price - m < -3000
    · rw [if_pos hcond] at hf2
      obtain rfl : (l, m, l.price - m) = x := Option.some.inj hf2
      exact ⟨hsel.1, hsel.2, hm, rfl, hcond, rfl⟩
    · rw [if_neg hcond] at hf2
      cases hf2

/-- C7 witness: at the two-listing fixture the emitted recommendation is for
vendor 1's active listing, with market price the including-own mean 30000,
adjustment 10000 outside the thresholds, and priority "medium" since the
magnitude does not exceed 10000. -/
theorem pricing_recommendation_sound_witness :
    ownListing.seller = 1 ∧ ownListing.status = "active" ∧
      avgMarketPrice [ownListing, rivalListing] ownListing = some 30000 ∧
      (10000 : ℚ) = ownListing.price - 30000 ∧
      ((10000 : ℚ) > 5000 ∨ (10000 : ℚ) < -3000) ∧
      "medium" = (if |(10000 : ℚ)| > 10000 then "high" else "medium") := by
  have hr :
      ({ car := ownListing, marketPrice := 30000, priceDiff := 10000,
         priority := "medium" } : PricingRec) ∈
        pricingRecommendations [ownListing, rivalListing] 1 := by
    rw [pricing_fixture_eval]
    exact List.mem_singleton.2 rfl
  exact pricing_recommendation_sound [ownListing, rivalListing] 1 _ hr

/-- C10 witness: a request whose update object holds only the non-whitelisted
key "vin" is rejected with 400 and leaves the store untouched, and a request
carrying a price change keeps every non-whitelisted field of the (owned)
listing intact. -/
theorem bulk_update_whitelist_witness :
    (bulkUpdate [sampleCar] 7 [1] [("vin", FieldVal.str "X")]).1 = 400 ∧
      (bulkUpdate [sampleCar] 7 [1] [("vin", FieldVal.str "X")]).2.1 = [sampleCar] ∧
      (∃ c, ((bulkUpdate [sampleCar] 7 [1]
          [("price", FieldVal.num 30000)]).2.1)[0]? = some c ∧
        preservesNonWhitelisted sampleCar c) := by
  refine ⟨?_, ?_, ?_⟩
  · exact ((bulk_update_whitelist [sampleCar] 7 [1]
      [("vin", FieldVal.str "X")]).2.1 (by decide)).1
  · exact ((bulk_update_whitelist [sampleCar] 7 [1]
      [("vin", FieldVal.str "X")]).2.1 (by decide)).2
  · exact (bulk_update_whitelist [sampleCar] 7 [1]
      [("price", FieldVal.num 30000)]).2.2 0 (by norm_num)

end CarMarket
